import Mathlib

/-!
# Verification of the mortgage calculation engine

Shallow embedding of the core of the `Demo-streamlit-101` mortgage
calculator: the data model (`models.py`), the input validator
(`utils.py`) and the amortization engine (`calculations.py`).
Python floats are modelled as exact rationals (`ℚ`); Python ints as `ℤ`
(or `ℕ` where the source guarantees non-negativity, e.g. `range`
indices); functions that raise are modelled with `Except`/`Option`.
-/

/-- `config.MONTHS_PER_YEAR`. -/
def MONTHS_PER_YEAR : ℤ := 12

/-- `config.PERCENTAGE_DIVISOR`. -/
def PERCENTAGE_DIVISOR : ℤ := 100

/-- `models.MortgageInputs` (field values, before `__post_init__` runs). -/
structure MortgageInputs where
  home_value : ℚ
  deposit : ℚ
  interest_rate : ℚ
  loan_term_years : ℤ
  deriving DecidableEq, Repr

/-- `models.MortgageResults`. -/
structure MortgageResults where
  loan_amount : ℚ
  monthly_payment : ℚ
  total_payments : ℚ
  total_interest : ℚ
  monthly_interest_rate : ℚ
  number_of_payments : ℤ
  deriving DecidableEq, Repr

/-- `models.PaymentScheduleEntry`. `month` and `year` come from a 1-based
`range` and `math.ceil` of a positive quotient, so they live in `ℕ`. -/
structure PaymentScheduleEntry where
  month : ℕ
  payment : ℚ
  principal : ℚ
  interest : ℚ
  remaining_balance : ℚ
  year : ℕ
  deriving DecidableEq, Repr

/-- `models.PaymentSchedule`. -/
structure PaymentSchedule where
  entries : List PaymentScheduleEntry
  deriving DecidableEq, Repr

instance {ε α : Type} [DecidableEq ε] [DecidableEq α] :
    DecidableEq (Except ε α) := fun
  | .error a, .error b =>
      if h : a = b then .isTrue (by rw [h])
      else .isFalse (by intro hc; cases hc; exact h rfl)
  | .error _, .ok _ => .isFalse (by intro hc; cases hc)
  | .ok _, .error _ => .isFalse (by intro hc; cases hc)
  | .ok a, .ok b =>
      if h : a = b then .isTrue (by rw [h])
      else .isFalse (by intro hc; cases hc; exact h rfl)

/-- `models.MortgageInputs.__post_init__`: the dataclass validation that
runs at construction time and raises `ValueError` on a bad combination.
Modelled as a fallible constructor returning the would-be instance. -/
def mkMortgageInputs (home_value deposit interest_rate : ℚ)
    (loan_term_years : ℤ) : Except String MortgageInputs :=
  if home_value < 0 then .error "Home value must be non-negative"
  else if deposit < 0 then .error "Deposit must be non-negative"
  else if deposit > home_value then .error "Deposit cannot exceed home value"
  else if interest_rate < 0 then .error "Interest rate must be non-negative"
  else if loan_term_years < 1 then .error "Loan term must be at least 1 year"
  else .ok ⟨home_value, deposit, interest_rate, loan_term_years⟩

/-- A `MortgageInputs` value is *constructed* when `__post_init__` accepts
exactly its field values (no exception is raised). -/
def MortgageInputs.constructed (i : MortgageInputs) : Prop :=
  mkMortgageInputs i.home_value i.deposit i.interest_rate i.loan_term_years =
    Except.ok i

instance (i : MortgageInputs) : Decidable i.constructed := by
  unfold MortgageInputs.constructed; infer_instance

/-- `utils.validate_inputs`: returns the error message of the first failing
rule, `none` when all rules pass. -/
def validate_inputs (home_value deposit interest_rate : ℚ)
    (loan_term : ℤ) : Option String :=
  if home_value ≤ 0 then some "Home value must be greater than zero."
  else if deposit < 0 then some "Deposit cannot be negative."
  else if deposit ≥ home_value then some "Deposit must be less than home value."
  else if interest_rate < 0 then some "Interest rate cannot be negative."
  else if loan_term < 1 then some "Loan term must be at least 1 year."
  else if loan_term > 50 then some "Loan term cannot exceed 50 years."
  else none

/-- `calculations.MortgageCalculator.calculate_mortgage`.
Raising `ValueError` / `ZeroDivisionError` is modelled by `Except.error`
with the message of the Python exception; Python's `ZeroDivisionError`
(zero `number_of_payments` in the 0%-rate branch, or a zero annuity
denominator) becomes the guarded `.error` branches. -/
def MortgageCalculator.calculate_mortgage (inputs : MortgageInputs) :
    Except String MortgageResults :=
  let loan_amount := inputs.home_value - inputs.deposit
  if loan_amount ≤ 0 then
    .error "Loan amount must be positive. Ensure home value is greater than deposit."
  else
    let monthly_interest_rate :=
      inputs.interest_rate / (PERCENTAGE_DIVISOR : ℚ) / (MONTHS_PER_YEAR : ℚ)
    let number_of_payments := inputs.loan_term_years * MONTHS_PER_YEAR
    if monthly_interest_rate = 0 then
      if (number_of_payments : ℚ) = 0 then
        .error "Error in payment calculation. Check input values."
      else
        let monthly_payment := loan_amount / (number_of_payments : ℚ)
        .ok { loan_amount := loan_amount
              monthly_payment := monthly_payment
              total_payments := monthly_payment * (number_of_payments : ℚ)
              total_interest := monthly_payment * (number_of_payments : ℚ) - loan_amount
              monthly_interest_rate := monthly_interest_rate
              number_of_payments := number_of_payments }
    else
      let power_term := (1 + monthly_interest_rate) ^ number_of_payments
      if power_term - 1 = 0 then
        .error "Error in payment calculation. Check input values."
      else
        let monthly_payment :=
          loan_amount * (monthly_interest_rate * power_term) / (power_term - 1)
        .ok { loan_amount := loan_amount
              monthly_payment := monthly_payment
              total_payments := monthly_payment * (number_of_payments : ℚ)
              total_interest := monthly_payment * (number_of_payments : ℚ) - loan_amount
              monthly_interest_rate := monthly_interest_rate
              number_of_payments := number_of_payments }

/-- One loop iteration of `generate_payment_schedule`, emitting the entries
for months `month, month+1, ...` while `fuel` iterations remain.
`bal` is the running `remaining_balance`. -/
def scheduleGo (rate payment : ℚ) : ℚ → ℕ → ℕ → List PaymentScheduleEntry
  | _, _, 0 => []
  | bal, month, fuel + 1 =>
      let interest_payment := bal * rate
      let principal_payment := payment - interest_payment
      let balance' := bal - principal_payment
      let remaining_balance := if balance' < 1/100 then 0 else balance'
      let year := ⌈(month : ℚ) / (MONTHS_PER_YEAR : ℚ)⌉₊
      { month := month
        payment := payment
        principal := principal_payment
        interest := interest_payment
        remaining_balance := remaining_balance
        year := year } :: scheduleGo rate payment remaining_balance (month + 1) fuel

/-- `calculations.MortgageCalculator.generate_payment_schedule`.
The Python loop is `for month in range(1, results.number_of_payments + 1)`,
which is empty when `number_of_payments ≤ 0`; hence the `Int.toNat` fuel.
The `inputs` parameter is kept because the source takes it (it is unused). -/
def MortgageCalculator.generate_payment_schedule (_inputs : MortgageInputs)
    (results : MortgageResults) : PaymentSchedule :=
  { entries := scheduleGo results.monthly_interest_rate results.monthly_payment
      results.loan_amount 1 results.number_of_payments.toNat }

/-- Spec §4.2: `monthly_rate = (annual_interest_rate / 100) / 12`.
Spec-side definition, written from the spec's words, for the refinement
comparison against `calculate_mortgage`. -/
def spec_monthly_rate (i : MortgageInputs) : ℚ :=
  i.interest_rate / 100 / 12

/-- Spec §4.2: `number_of_payments = term_years * 12` (spec-side). -/
def spec_number_of_payments (i : MortgageInputs) : ℤ :=
  i.loan_term_years * 12

/-- Spec §4.2: the monthly payment, straight-line when `monthly_rate = 0`,
otherwise the standard annuity formula (spec-side). -/
def spec_monthly_payment (i : MortgageInputs) : ℚ :=
  if spec_monthly_rate i = 0 then
    (i.home_value - i.deposit) / (spec_number_of_payments i : ℚ)
  else
    (i.home_value - i.deposit) *
      (spec_monthly_rate i * (1 + spec_monthly_rate i) ^ spec_number_of_payments i) /
      ((1 + spec_monthly_rate i) ^ spec_number_of_payments i - 1)

/-- Spec §3/§4.2: the full derived `LoanResults` record (spec-side):
`total_paid = monthly_payment * n`, `total_interest = total_paid - principal`. -/
def spec_results (i : MortgageInputs) : MortgageResults :=
  { loan_amount := i.home_value - i.deposit
    monthly_payment := spec_monthly_payment i
    total_payments := spec_monthly_payment i * (spec_number_of_payments i : ℚ)
    total_interest :=
      spec_monthly_payment i * (spec_number_of_payments i : ℚ) -
        (i.home_value - i.deposit)
    monthly_interest_rate := spec_monthly_rate i
    number_of_payments := spec_number_of_payments i }

/-- Spec §4.1: the validator as the spec words it — six rules checked in
order, first failure wins, `none` on success (spec-side definition for the
refinement comparison against `validate_inputs`). -/
def spec_validate (home_value deposit annual_interest_rate : ℚ)
    (term_years : ℤ) : Option String :=
  if home_value ≤ 0 then some "Home value must be greater than zero."
  else if deposit < 0 then some "Deposit cannot be negative."
  else if deposit ≥ home_value then some "Deposit must be less than home value."
  else if annual_interest_rate < 0 then some "Interest rate cannot be negative."
  else if term_years < 1 then some "Loan term must be at least 1 year."
  else if term_years > 50 then some "Loan term cannot exceed 50 years."
  else none

/-- The balance update of one schedule iteration *without* the clamp:
`bal - (payment - bal * rate)`. -/
def pureStep (rate payment bal : ℚ) : ℚ :=
  bal - (payment - bal * rate)

/-- `k` unclamped balance updates starting from `bal`. -/
def pureIter (rate payment : ℚ) : ℚ → ℕ → ℚ
  | bal, 0 => bal
  | bal, k + 1 => pureIter rate payment (pureStep rate payment bal) k

/-- The balance update of one schedule iteration *with* the
`< 0.01 → 0` clamp, exactly as in the loop body of
`generate_payment_schedule`. -/
def clampStep (rate payment bal : ℚ) : ℚ :=
  let balance' := bal - (payment - bal * rate)
  if balance' < 1/100 then 0 else balance'

/-- `k` clamped balance updates starting from `bal`: the running
`remaining_balance` of the schedule loop after `k` iterations. -/
def clampIter (rate payment : ℚ) : ℚ → ℕ → ℚ
  | bal, 0 => bal
  | bal, k + 1 => clampIter rate payment (clampStep rate payment bal) k

example :
    validate_inputs 500000 100000 (11/2) 30 = none := by
  norm_num [validate_inputs]

example :
    validate_inputs 200000 200000 5 30 =
      some "Deposit must be less than home value." := by
  norm_num [validate_inputs]

example :
    MortgageCalculator.calculate_mortgage ⟨300000, 50000, 0, 25⟩ =
      Except.ok ⟨250000, 2500/3, 250000, 0, 0, 300⟩ := by
  norm_num [MortgageCalculator.calculate_mortgage, MONTHS_PER_YEAR,
    PERCENTAGE_DIVISOR]

theorem pureIter_succ (rate payment bal : ℚ) (k : ℕ) :
    pureIter rate payment bal (k + 1) =
      pureIter rate payment (pureStep rate payment bal) k := rfl

theorem clampIter_succ (rate payment bal : ℚ) (k : ℕ) :
    clampIter rate payment bal (k + 1) =
      clampIter rate payment (clampStep rate payment bal) k := rfl

theorem scheduleGo_length (rate payment bal : ℚ) (month fuel : ℕ) :
    (scheduleGo rate payment bal month fuel).length = fuel := by
  induction fuel generalizing bal month with
  | zero => rfl
  | succ f ih => simpa [scheduleGo] using ih _ _

theorem scheduleGo_getElem? (rate payment bal : ℚ) (month fuel i : ℕ)
    (h : i < fuel) :
    (scheduleGo rate payment bal month fuel)[i]? =
      some
        { month := month + i
          payment := payment
          principal := payment - clampIter rate payment bal i * rate
          interest := clampIter rate payment bal i * rate
          remaining_balance := clampIter rate payment bal (i + 1)
          year := ⌈((month + i : ℕ) : ℚ) / (MONTHS_PER_YEAR : ℚ)⌉₊ } := by
  induction fuel generalizing bal month i with
  | zero => omega
  | succ f ih =>
    cases i with
    | zero =>
      simp [scheduleGo, clampIter, clampStep, pureStep]
    | succ j =>
      have hj : j < f := by omega
      have hstep := ih (clampStep rate payment bal) (month + 1) j hj
      have hm : month + 1 + j = month + (j + 1) := by omega
      rw [hm] at hstep
      simpa only [scheduleGo, List.getElem?_cons_succ, clampIter_succ,
        clampStep] using hstep

theorem pureIter_mul (rate payment bal : ℚ) (k : ℕ) :
    rate * pureIter rate payment bal k =
      rate * bal * (1 + rate) ^ k - payment * ((1 + rate) ^ k - 1) := by
  induction k generalizing bal with
  | zero => simp only [pureIter, pow_zero]; ring
  | succ n ih =>
    rw [pureIter_succ, ih]
    simp only [pureStep]
    ring

theorem pureIter_rate_zero (payment bal : ℚ) (k : ℕ) :
    pureIter 0 payment bal k = bal - k * payment := by
  induction k generalizing bal with
  | zero => simp [pureIter]
  | succ n ih =>
    rw [pureIter_succ, ih]
    simp only [pureStep]
    push_cast
    ring

theorem clampStep_nonneg (rate payment bal : ℚ) :
    0 ≤ clampStep rate payment bal := by
  simp only [clampStep]
  split_ifs with h
  · exact le_refl 0
  · linarith

theorem clampStep_zero (rate payment : ℚ) (hM : 0 < payment) :
    clampStep rate payment 0 = 0 := by
  have h : (0 : ℚ) - (payment - 0 * rate) < 1/100 := by linarith
  simp only [clampStep]
  rw [if_pos h]

theorem clampIter_zero_start (rate payment : ℚ) (hM : 0 < payment) (k : ℕ) :
    clampIter rate payment 0 k = 0 := by
  induction k with
  | zero => rfl
  | succ n ih => rw [clampIter_succ, clampStep_zero rate payment hM]; exact ih

theorem clampIter_eq_zero_of_pureIter (rate payment : ℚ) (hM : 0 < payment) :
    ∀ (m : ℕ) (bal : ℚ), 1 ≤ m →
      pureIter rate payment bal m = 0 → clampIter rate payment bal m = 0 := by
  intro m
  induction m with
  | zero => intro bal h _; omega
  | succ k ih =>
    intro bal _ hpure
    rcases Nat.eq_zero_or_pos k with hk | hk
    · subst hk
      have h0 : bal - (payment - bal * rate) = 0 := by
        simpa [pureIter, pureStep] using hpure
      rw [clampIter_succ]
      simp only [clampIter, clampStep, h0]
      norm_num
    · rw [clampIter_succ]
      by_cases hc : bal - (payment - bal * rate) < 1/100
      · have hcs : clampStep rate payment bal = 0 := by
          simp only [clampStep]; rw [if_pos hc]
        rw [hcs]
        exact clampIter_zero_start rate payment hM k
      · have hcs : clampStep rate payment bal = bal - (payment - bal * rate) := by
          simp only [clampStep]; rw [if_neg hc]
        rw [hcs]
        apply ih _ hk
        rw [pureIter_succ] at hpure
        simpa [pureStep] using hpure

theorem clampStep_mono (rate payment : ℚ) (hr : 0 ≤ rate) {b₁ b₂ : ℚ}
    (h : b₁ ≤ b₂) :
    clampStep rate payment b₁ ≤ clampStep rate payment b₂ := by
  have hb : b₁ - (payment - b₁ * rate) ≤ b₂ - (payment - b₂ * rate) := by nlinarith
  simp only [clampStep]
  split_ifs with h₁ h₂
  · exact le_refl 0
  · linarith
  · linarith
  · exact hb

theorem clampIter_mono (rate payment : ℚ) (hr : 0 ≤ rate) :
    ∀ (k : ℕ) {b₁ b₂ : ℚ}, b₁ ≤ b₂ →
      clampIter rate payment b₁ k ≤ clampIter rate payment b₂ k := by
  intro k
  induction k with
  | zero => intro b₁ b₂ h; exact h
  | succ n ih =>
    intro b₁ b₂ h
    rw [clampIter_succ, clampIter_succ]
    exact ih (clampStep_mono rate payment hr h)

theorem clampStep_le_self (rate payment : ℚ) {bal : ℚ} (hb : 0 ≤ bal)
    (hbr : bal * rate ≤ payment) : clampStep rate payment bal ≤ bal := by
  simp only [clampStep]
  split_ifs with h
  · exact hb
  · linarith

theorem clampIter_bounds (rate payment : ℚ) (hr : 0 ≤ rate) :
    ∀ (k : ℕ) {bal : ℚ}, 0 ≤ bal → bal * rate ≤ payment →
      0 ≤ clampIter rate payment bal k ∧ clampIter rate payment bal k ≤ bal := by
  intro k
  induction k with
  | zero => intro bal hb _; exact ⟨hb, le_refl bal⟩
  | succ n ih =>
    intro bal hb hbr
    rw [clampIter_succ]
    have h0 : 0 ≤ clampStep rate payment bal := clampStep_nonneg rate payment bal
    have h1 : clampStep rate payment bal ≤ bal :=
      clampStep_le_self rate payment hb hbr
    have h2 : clampStep rate payment bal * rate ≤ payment :=
      le_trans (mul_le_mul_of_nonneg_right h1 hr) hbr
    obtain ⟨ha, hble⟩ := ih h0 h2
    exact ⟨ha, le_trans hble h1⟩

theorem clampIter_succ_le (rate payment : ℚ) (hr : 0 ≤ rate) (k : ℕ)
    {bal : ℚ} (hb : 0 ≤ bal) (hbr : bal * rate ≤ payment) :
    clampIter rate payment bal (k + 1) ≤ clampIter rate payment bal k := by
  rw [clampIter_succ]
  exact clampIter_mono rate payment hr k
    (clampStep_le_self rate payment hb hbr)

theorem scheduleGo_succ_eq (rate payment bal : ℚ) (month fuel : ℕ) :
    scheduleGo rate payment bal month (fuel + 1) =
      { month := month
        payment := payment
        principal := payment - bal * rate
        interest := bal * rate
        remaining_balance :=
          if bal - (payment - bal * rate) < 1/100 then 0
          else bal - (payment - bal * rate)
        year := ⌈(month : ℚ) / (MONTHS_PER_YEAR : ℚ)⌉₊ } ::
      scheduleGo rate payment
        (if bal - (payment - bal * rate) < 1/100 then 0
         else bal - (payment - bal * rate)) (month + 1) fuel := rfl

theorem scheduleGo_sum_principal (rate payment : ℚ) :
    ∀ (fuel : ℕ) (bal : ℚ) (month : ℕ),
      (∀ k, k + 1 < fuel → 1/100 ≤ pureIter rate payment bal (k + 1)) →
      ((scheduleGo rate payment bal month fuel).map
          PaymentScheduleEntry.principal).sum =
        bal - pureIter rate payment bal fuel := by
  intro fuel
  induction fuel with
  | zero => intro bal month _; simp [scheduleGo, pureIter]
  | succ f ihf =>
    intro bal month hcl
    cases f with
    | zero =>
      simp only [scheduleGo, List.map_cons, List.map_nil, List.sum_cons,
        List.sum_nil, pureIter, pureStep]
      ring
    | succ g =>
      have h1 : 1/100 ≤ pureIter rate payment bal 1 := hcl 0 (by omega)
      have hp1 : pureIter rate payment bal 1 = bal - (payment - bal * rate) := by
        simp [pureIter, pureStep]
      have hnc : ¬ (bal - (payment - bal * rate) < 1/100) := by
        rw [hp1] at h1; linarith
      have hshift : ∀ k, k + 1 < g + 1 →
          1/100 ≤ pureIter rate payment (bal - (payment - bal * rate)) (k + 1) := by
        intro k hk
        have := hcl (k + 1) (by omega)
        rw [pureIter_succ] at this
        simpa [pureStep] using this
      have ih' := ihf (bal - (payment - bal * rate)) (month + 1) hshift
      have hps : pureIter rate payment bal (g + 1 + 1) =
          pureIter rate payment (bal - (payment - bal * rate)) (g + 1) := rfl
      rw [scheduleGo_succ_eq, List.map_cons, List.sum_cons, if_neg hnc, ih',
        hps]
      ring

theorem validate_inputs_eq_none_iff (hv d r : ℚ) (t : ℤ) :
    validate_inputs hv d r t = none ↔
      0 < hv ∧ 0 ≤ d ∧ d < hv ∧ 0 ≤ r ∧ 1 ≤ t ∧ t ≤ 50 := by
  unfold validate_inputs
  split_ifs with h₁ h₂ h₃ h₄ h₅ h₆
  · exact iff_of_false (by simp) (fun hc => absurd hc.1 (not_lt.mpr h₁))
  · exact iff_of_false (by simp) (fun hc => absurd hc.2.1 (not_le.mpr h₂))
  · exact iff_of_false (by simp) (fun hc => absurd hc.2.2.1 (not_lt.mpr h₃))
  · exact iff_of_false (by simp) (fun hc => absurd hc.2.2.2.1 (not_le.mpr h₄))
  · exact iff_of_false (by simp) (fun hc => absurd hc.2.2.2.2.1 (by omega))
  · exact iff_of_false (by simp) (fun hc => absurd hc.2.2.2.2.2 (by omega))
  · push_neg at h₁ h₂ h₃ h₄ h₅ h₆
    exact iff_of_true rfl ⟨h₁, h₂, h₃, h₄, by omega, by omega⟩

theorem constructed_iff (i : MortgageInputs) :
    i.constructed ↔
      0 ≤ i.home_value ∧ 0 ≤ i.deposit ∧ i.deposit ≤ i.home_value ∧
        0 ≤ i.interest_rate ∧ 1 ≤ i.loan_term_years := by
  unfold MortgageInputs.constructed mkMortgageInputs
  split_ifs with h₁ h₂ h₃ h₄ h₅
  · exact iff_of_false (by simp) (fun hc => absurd hc.1 (not_le.mpr h₁))
  · exact iff_of_false (by simp) (fun hc => absurd hc.2.1 (not_le.mpr h₂))
  · exact iff_of_false (by simp) (fun hc => absurd hc.2.2.1 (not_le.mpr h₃))
  · exact iff_of_false (by simp) (fun hc => absurd hc.2.2.2.1 (not_le.mpr h₄))
  · exact iff_of_false (by simp) (fun hc => absurd hc.2.2.2.2 (by omega))
  · push_neg at h₁ h₂ h₃ h₄ h₅
    exact iff_of_true rfl ⟨h₁, h₂, h₃, h₄, by omega⟩

theorem spec_monthly_rate_nonneg (i : MortgageInputs)
    (hr : 0 ≤ i.interest_rate) : 0 ≤ spec_monthly_rate i := by
  unfold spec_monthly_rate; positivity

theorem spec_monthly_rate_pos (i : MortgageInputs)
    (hr : 0 ≤ i.interest_rate) (hne : spec_monthly_rate i ≠ 0) :
    0 < spec_monthly_rate i :=
  lt_of_le_of_ne (spec_monthly_rate_nonneg i hr) (Ne.symm hne)

theorem spec_number_of_payments_pos (i : MortgageInputs)
    (ht : 1 ≤ i.loan_term_years) : 0 < spec_number_of_payments i := by
  unfold spec_number_of_payments; omega

theorem spec_toNat (i : MortgageInputs) (ht : 1 ≤ i.loan_term_years) :
    (((spec_number_of_payments i).toNat : ℤ)) = spec_number_of_payments i :=
  Int.toNat_of_nonneg (le_of_lt (spec_number_of_payments_pos i ht))

theorem spec_pow_toNat (i : MortgageInputs) (ht : 1 ≤ i.loan_term_years) :
    (1 + spec_monthly_rate i) ^ spec_number_of_payments i =
      (1 + spec_monthly_rate i) ^ ((spec_number_of_payments i).toNat) := by
  conv_lhs => rw [← spec_toNat i ht]
  rw [zpow_natCast]

theorem spec_toNat_pos (i : MortgageInputs) (ht : 1 ≤ i.loan_term_years) :
    12 ≤ (spec_number_of_payments i).toNat := by
  unfold spec_number_of_payments; omega

theorem one_lt_spec_pow (i : MortgageInputs) (hr : 0 ≤ i.interest_rate)
    (hne : spec_monthly_rate i ≠ 0) (ht : 1 ≤ i.loan_term_years) :
    1 < (1 + spec_monthly_rate i) ^ ((spec_number_of_payments i).toNat) := by
  have hrpos := spec_monthly_rate_pos i hr hne
  have hN := spec_toNat_pos i ht
  exact one_lt_pow₀ (by linarith) (by omega)

theorem calculate_mortgage_eq (i : MortgageInputs)
    (hP : 0 < i.home_value - i.deposit) (hr : 0 ≤ i.interest_rate)
    (ht : 1 ≤ i.loan_term_years) :
    MortgageCalculator.calculate_mortgage i = Except.ok (spec_results i) := by
  simp only [MortgageCalculator.calculate_mortgage, MONTHS_PER_YEAR,
    PERCENTAGE_DIVISOR, Int.cast_ofNat]
  rw [if_neg (not_le.mpr hP)]
  rw [show i.interest_rate / 100 / 12 = spec_monthly_rate i from rfl]
  rw [show i.loan_term_years * 12 = spec_number_of_payments i from rfl]
  by_cases hr0 : spec_monthly_rate i = 0
  · rw [if_pos hr0]
    have hnz : ((spec_number_of_payments i : ℤ) : ℚ) ≠ 0 := by
      exact_mod_cast ne_of_gt (spec_number_of_payments_pos i ht)
    rw [if_neg hnz]
    simp [spec_results, spec_monthly_payment, hr0]
  · rw [if_neg hr0]
    have hpow : 1 < (1 + spec_monthly_rate i) ^ spec_number_of_payments i := by
      rw [spec_pow_toNat i ht]; exact one_lt_spec_pow i hr hr0 ht
    rw [if_neg (sub_ne_zero.mpr (ne_of_gt hpow))]
    simp [spec_results, spec_monthly_payment, hr0]

theorem spec_monthly_payment_pos (i : MortgageInputs)
    (hP : 0 < i.home_value - i.deposit) (hr : 0 ≤ i.interest_rate)
    (ht : 1 ≤ i.loan_term_years) : 0 < spec_monthly_payment i := by
  unfold spec_monthly_payment
  by_cases hr0 : spec_monthly_rate i = 0
  · rw [if_pos hr0]
    apply div_pos hP
    have := spec_number_of_payments_pos i ht
    exact_mod_cast this
  · rw [if_neg hr0]
    have hrpos := spec_monthly_rate_pos i hr hr0
    have hpow : 1 < (1 + spec_monthly_rate i) ^ spec_number_of_payments i := by
      rw [spec_pow_toNat i ht]; exact one_lt_spec_pow i hr hr0 ht
    exact div_pos (mul_pos hP (mul_pos hrpos (by linarith))) (by linarith)

theorem principal_rate_le_payment (i : MortgageInputs)
    (hP : 0 < i.home_value - i.deposit) (hr : 0 ≤ i.interest_rate)
    (ht : 1 ≤ i.loan_term_years) :
    (i.home_value - i.deposit) * spec_monthly_rate i ≤
      spec_monthly_payment i := by
  unfold spec_monthly_payment
  by_cases hr0 : spec_monthly_rate i = 0
  · rw [if_pos hr0, hr0, mul_zero]
    apply le_of_lt (div_pos hP _)
    have := spec_number_of_payments_pos i ht
    exact_mod_cast this
  · rw [if_neg hr0]
    have hrpos := spec_monthly_rate_pos i hr hr0
    have hpow : 1 < (1 + spec_monthly_rate i) ^ spec_number_of_payments i := by
      rw [spec_pow_toNat i ht]; exact one_lt_spec_pow i hr hr0 ht
    rw [le_div_iff₀ (by linarith : (0:ℚ) <
      (1 + spec_monthly_rate i) ^ spec_number_of_payments i - 1)]
    nlinarith [mul_pos hP hrpos]

theorem spec_pureIter_eq_zero (i : MortgageInputs)
    (hr : 0 ≤ i.interest_rate) (ht : 1 ≤ i.loan_term_years) :
    pureIter (spec_monthly_rate i) (spec_monthly_payment i)
      (i.home_value - i.deposit) ((spec_number_of_payments i).toNat) = 0 := by
  by_cases hr0 : spec_monthly_rate i = 0
  · rw [hr0, pureIter_rate_zero]
    have hM : spec_monthly_payment i =
        (i.home_value - i.deposit) / ((spec_number_of_payments i : ℤ) : ℚ) := by
      unfold spec_monthly_payment; rw [if_pos hr0]
    have hN : (((spec_number_of_payments i).toNat : ℕ) : ℚ) =
        ((spec_number_of_payments i : ℤ) : ℚ) := by
      exact_mod_cast spec_toNat i ht
    have hnz : ((spec_number_of_payments i : ℤ) : ℚ) ≠ 0 := by
      exact_mod_cast ne_of_gt (spec_number_of_payments_pos i ht)
    rw [hM, hN]
    field_simp
  · have hrpos : spec_monthly_rate i ≠ 0 := hr0
    have hpow : 1 < (1 + spec_monthly_rate i) ^
        ((spec_number_of_payments i).toNat) := one_lt_spec_pow i hr hr0 ht
    have hM : spec_monthly_payment i =
        (i.home_value - i.deposit) *
          (spec_monthly_rate i *
            (1 + spec_monthly_rate i) ^ ((spec_number_of_payments i).toNat)) /
          ((1 + spec_monthly_rate i) ^ ((spec_number_of_payments i).toNat) - 1) := by
      unfold spec_monthly_payment
      rw [if_neg hr0, spec_pow_toNat i ht]
    have hz : spec_monthly_rate i *
        pureIter (spec_monthly_rate i) (spec_monthly_payment i)
          (i.home_value - i.deposit) ((spec_number_of_payments i).toNat) = 0 := by
      rw [pureIter_mul, hM,
        div_mul_cancel₀ _ (sub_ne_zero.mpr (ne_of_gt hpow))]
      ring
    rcases mul_eq_zero.mp hz with h | h
    · exact absurd h hrpos
    · exact h

/-- C3: for every quadruple of raw inputs, `validate_inputs` checks the six
rules in the order home_value ≤ 0, deposit < 0, deposit ≥ home_value,
interest_rate < 0, term < 1, term > 50, returning the first failing rule's
message (short-circuit) and `none` when no rule fails. -/
theorem validate_inputs_rules (hv d r : ℚ) (t : ℤ) :
    validate_inputs hv d r t = spec_validate hv d r t ∧
      (validate_inputs hv d r t = none ↔
        ¬ hv ≤ 0 ∧ ¬ d < 0 ∧ ¬ d ≥ hv ∧ ¬ r < 0 ∧ ¬ t < 1 ∧ ¬ t > 50) := by
  refine ⟨rfl, ?_⟩
  rw [validate_inputs_eq_none_iff]
  push_neg
  tauto

/-- C10: `generate_payment_schedule`'s output depends only on the `results`
argument; the `inputs` argument is never read, so two calls with equal
results and arbitrary different inputs return identical schedules. -/
theorem schedule_ignores_inputs (i₁ i₂ : MortgageInputs)
    (res : MortgageResults) :
    MortgageCalculator.generate_payment_schedule i₁ res =
      MortgageCalculator.generate_payment_schedule i₂ res := rfl

/-- C5 counterexample: `home_value = 100, deposit = 100, rate = 0, term = 1`
is rejected by the validator (`deposit >= home_value`), yet
`MortgageInputs.__post_init__` accepts it (it only requires
`deposit <= home_value`), so a live instance is produced. -/
theorem validator_reject_still_constructs :
    validate_inputs 100 100 0 1 =
        some "Deposit must be less than home value." ∧
      mkMortgageInputs 100 100 0 1 = Except.ok ⟨100, 100, 0, 1⟩ := by
  constructor
  · norm_num [validate_inputs]
  · norm_num [mkMortgageInputs]

/-- C5 (amended): construction fails only on the model invariants
(`home_value < 0`, `deposit < 0`, `deposit > home_value`, `rate < 0`,
`term < 1`), which are strictly weaker than the validator's rules: every
validator-accepted combination constructs, and every constructed instance
satisfies `deposit ≤ home_value`; but a validator-rejected combination
(e.g. `deposit = home_value`, `term > 50`, or `home_value = 0`) can still
produce a live instance. -/
theorem validator_accept_implies_construct (hv d r : ℚ) (t : ℤ) :
    (validate_inputs hv d r t = none →
      mkMortgageInputs hv d r t = Except.ok ⟨hv, d, r, t⟩) ∧
    (∀ i : MortgageInputs, mkMortgageInputs hv d r t = Except.ok i →
      i.deposit ≤ i.home_value) := by
  constructor
  · intro h
    rw [validate_inputs_eq_none_iff] at h
    obtain ⟨h₁, h₂, h₃, h₄, h₅, h₆⟩ := h
    unfold mkMortgageInputs
    rw [if_neg (by linarith), if_neg (by linarith), if_neg (by linarith),
      if_neg (by linarith), if_neg (by omega)]
  · intro i hi
    unfold mkMortgageInputs at hi
    split_ifs at hi with h₁ h₂ h₃ h₄ h₅
    have hieq : (⟨hv, d, r, t⟩ : MortgageInputs) = i := Except.ok.inj hi
    rw [← hieq]
    simpa using not_lt.mp h₃

theorem validator_accept_implies_construct_witness :
    mkMortgageInputs 500000 100000 (11/2) 30 =
        Except.ok ⟨500000, 100000, 11/2, 30⟩ ∧
      (⟨500000, 100000, 11/2, 30⟩ : MortgageInputs).deposit ≤
        (⟨500000, 100000, 11/2, 30⟩ : MortgageInputs).home_value := by
  refine ⟨?_, ?_⟩
  · exact (validator_accept_implies_construct 500000 100000 (11/2) 30).1
      (by norm_num [validate_inputs])
  · exact (validator_accept_implies_construct 500000 100000 (11/2) 30).2 _
      ((validator_accept_implies_construct 500000 100000 (11/2) 30).1
        (by norm_num [validate_inputs]))

/-- C4: for every constructed `MortgageInputs`, `calculate_mortgage` fails
(raises) if and only if the derived principal `home_value - deposit` is
`≤ 0`, independently of the validator. -/
theorem calculate_mortgage_fails_iff (i : MortgageInputs)
    (h : i.constructed) :
    (∃ msg, MortgageCalculator.calculate_mortgage i = Except.error msg) ↔
      i.home_value - i.deposit ≤ 0 := by
  obtain ⟨h₁, h₂, h₃, h₄, h₅⟩ := (constructed_iff i).mp h
  constructor
  · rintro ⟨msg, hmsg⟩
    by_contra hc
    push_neg at hc
    rw [calculate_mortgage_eq i hc h₄ h₅] at hmsg
    exact Except.noConfusion hmsg
  · intro hc
    refine ⟨"Loan amount must be positive. Ensure home value is greater than deposit.", ?_⟩
    simp only [MortgageCalculator.calculate_mortgage]
    rw [if_pos hc]

theorem calculate_mortgage_fails_iff_witness :
    ∃ msg, MortgageCalculator.calculate_mortgage ⟨100, 100, 0, 1⟩ =
      Except.error msg :=
  (calculate_mortgage_fails_iff ⟨100, 100, 0, 1⟩
    (by rw [constructed_iff]; norm_num)).2 (by norm_num)

/-- C2: for every constructed `MortgageInputs` with positive principal,
`calculate_mortgage` returns exactly the spec's formulas:
`monthly_rate = (rate/100)/12`, `n = term*12`, straight-line payment when
the rate is zero and the annuity formula otherwise, with
`total_paid = monthly_payment * n` and
`total_interest = total_paid - principal`. -/
theorem calculate_mortgage_formulas (i : MortgageInputs) (h : i.constructed)
    (hP : 0 < i.home_value - i.deposit) :
    MortgageCalculator.calculate_mortgage i = Except.ok (spec_results i) := by
  obtain ⟨_, _, _, h₄, h₅⟩ := (constructed_iff i).mp h
  exact calculate_mortgage_eq i hP h₄ h₅

theorem calculate_mortgage_formulas_witness :
    MortgageCalculator.calculate_mortgage ⟨500000, 100000, 11/2, 30⟩ =
      Except.ok (spec_results ⟨500000, 100000, 11/2, 30⟩) :=
  calculate_mortgage_formulas ⟨500000, 100000, 11/2, 30⟩
    (by rw [constructed_iff]; norm_num) (by norm_num)

theorem scheduleGo_sum_principal_range (rate payment : ℚ) :
    ∀ (fuel : ℕ) (bal : ℚ) (month : ℕ),
      ((scheduleGo rate payment bal month fuel).map
          PaymentScheduleEntry.principal).sum =
        ∑ k ∈ Finset.range fuel,
          (payment - clampIter rate payment bal k * rate) := by
  intro fuel
  induction fuel with
  | zero => intro bal month; simp [scheduleGo]
  | succ f ihf =>
    intro bal month
    rw [scheduleGo_succ_eq]
    simp only [List.map_cons, List.sum_cons]
    rw [Finset.sum_range_succ']
    rw [show (if bal - (payment - bal * rate) < 1/100 then 0
        else bal - (payment - bal * rate)) = clampStep rate payment bal
      from rfl]
    rw [ihf (clampStep rate payment bal) (month + 1)]
    have hsum : ∑ k ∈ Finset.range f,
        (payment - clampIter rate payment (clampStep rate payment bal) k * rate) =
        ∑ k ∈ Finset.range f,
          (payment - clampIter rate payment bal (k + 1) * rate) :=
      Finset.sum_congr rfl (fun k _ => by rw [← clampIter_succ])
    rw [hsum, show clampIter rate payment bal 0 = bal from rfl]
    ring

theorem schedule_entries_eq (i : MortgageInputs) (res : MortgageResults)
    (hval : validate_inputs i.home_value i.deposit i.interest_rate
      i.loan_term_years = none)
    (hcalc : MortgageCalculator.calculate_mortgage i = Except.ok res) :
    (MortgageCalculator.generate_payment_schedule i res).entries =
      scheduleGo (spec_monthly_rate i) (spec_monthly_payment i)
        (i.home_value - i.deposit) 1 ((spec_number_of_payments i).toNat) := by
  obtain ⟨h₁, h₂, h₃, h₄, h₅, h₆⟩ :=
    (validate_inputs_eq_none_iff _ _ _ _).mp hval
  have hP : 0 < i.home_value - i.deposit := by linarith
  rw [calculate_mortgage_eq i hP h₄ h₅] at hcalc
  have hres : res = spec_results i := (Except.ok.inj hcalc).symm
  subst hres
  rfl

theorem schedule_getElem?_eq (i : MortgageInputs) (res : MortgageResults)
    (hval : validate_inputs i.home_value i.deposit i.interest_rate
      i.loan_term_years = none)
    (hcalc : MortgageCalculator.calculate_mortgage i = Except.ok res)
    (k : ℕ) (hk : k < (spec_number_of_payments i).toNat) :
    (MortgageCalculator.generate_payment_schedule i res).entries[k]? =
      some
        { month := 1 + k
          payment := spec_monthly_payment i
          principal := spec_monthly_payment i -
            clampIter (spec_monthly_rate i) (spec_monthly_payment i)
              (i.home_value - i.deposit) k * spec_monthly_rate i
          interest := clampIter (spec_monthly_rate i) (spec_monthly_payment i)
              (i.home_value - i.deposit) k * spec_monthly_rate i
          remaining_balance :=
            clampIter (spec_monthly_rate i) (spec_monthly_payment i)
              (i.home_value - i.deposit) (k + 1)
          year := ⌈((1 + k : ℕ) : ℚ) / (MONTHS_PER_YEAR : ℚ)⌉₊ } := by
  rw [schedule_entries_eq i res hval hcalc]
  exact scheduleGo_getElem? _ _ _ _ _ _ hk

theorem schedule_length_eq (i : MortgageInputs) (res : MortgageResults)
    (hval : validate_inputs i.home_value i.deposit i.interest_rate
      i.loan_term_years = none)
    (hcalc : MortgageCalculator.calculate_mortgage i = Except.ok res) :
    (MortgageCalculator.generate_payment_schedule i res).entries.length =
      (spec_number_of_payments i).toNat := by
  rw [schedule_entries_eq i res hval hcalc]
  exact scheduleGo_length _ _ _ _ _

/-- C9: for every constructed `MortgageInputs` with positive principal and
positive monthly rate, the annuity denominator `(1+r)^n - 1` is strictly
positive and the engine returns a finite `ok` result (the zero-denominator
branch is unreachable); and whenever the denominator *is* zero (reachable
only with a nonzero rate, e.g. pathological negative rates bypassing the
validator), the engine surfaces the computation-failed error instead of
dividing by it. -/
theorem annuity_denominator_safety (i : MortgageInputs) :
    (i.constructed → 0 < i.home_value - i.deposit →
      0 < spec_monthly_rate i →
      0 < (1 + spec_monthly_rate i) ^ spec_number_of_payments i - 1 ∧
        MortgageCalculator.calculate_mortgage i =
          Except.ok (spec_results i)) ∧
    (0 < i.home_value - i.deposit → spec_monthly_rate i ≠ 0 →
      (1 + spec_monthly_rate i) ^ spec_number_of_payments i - 1 = 0 →
      MortgageCalculator.calculate_mortgage i =
        Except.error "Error in payment calculation. Check input values.") := by
  constructor
  · intro hcon hP hrpos
    obtain ⟨_, _, _, h₄, h₅⟩ := (constructed_iff i).mp hcon
    have hpow : 1 < (1 + spec_monthly_rate i) ^ spec_number_of_payments i := by
      rw [spec_pow_toNat i h₅]
      exact one_lt_spec_pow i h₄ (ne_of_gt hrpos) h₅
    exact ⟨by linarith, calculate_mortgage_eq i hP h₄ h₅⟩
  · intro hP hne hzero
    simp only [MortgageCalculator.calculate_mortgage, MONTHS_PER_YEAR,
      PERCENTAGE_DIVISOR, Int.cast_ofNat]
    rw [if_neg (not_le.mpr hP)]
    rw [show i.interest_rate / 100 / 12 = spec_monthly_rate i from rfl]
    rw [show i.loan_term_years * 12 = spec_number_of_payments i from rfl]
    rw [if_neg hne, if_pos hzero]

theorem annuity_denominator_safety_witness :
    (0 < (1 + spec_monthly_rate ⟨500000, 100000, 11/2, 30⟩) ^
          spec_number_of_payments ⟨500000, 100000, 11/2, 30⟩ - 1 ∧
        MortgageCalculator.calculate_mortgage ⟨500000, 100000, 11/2, 30⟩ =
          Except.ok (spec_results ⟨500000, 100000, 11/2, 30⟩)) ∧
      MortgageCalculator.calculate_mortgage ⟨100, 0, -2400, 2⟩ =
        Except.error "Error in payment calculation. Check input values." := by
  constructor
  · exact (annuity_denominator_safety ⟨500000, 100000, 11/2, 30⟩).1
      (by rw [constructed_iff]; norm_num) (by norm_num)
      (by norm_num [spec_monthly_rate])
  · apply (annuity_denominator_safety ⟨100, 0, -2400, 2⟩).2
    · norm_num
    · norm_num [spec_monthly_rate]
    · norm_num [spec_monthly_rate, spec_number_of_payments]

/-- C6: for every validator-accepted input and the results computed from
it, the schedule has exactly `term_years * 12` entries; the entry at index
`k` has `month = k + 1` (so months are emitted in increasing order from 1
to n), and its `year` equals `⌈month / 12⌉`. -/
theorem schedule_length_and_indexing (i : MortgageInputs)
    (res : MortgageResults)
    (hval : validate_inputs i.home_value i.deposit i.interest_rate
      i.loan_term_years = none)
    (hcalc : MortgageCalculator.calculate_mortgage i = Except.ok res) :
    (((MortgageCalculator.generate_payment_schedule i res).entries.length : ℤ)
        = i.loan_term_years * 12) ∧
      ∀ (k : ℕ) (e : PaymentScheduleEntry),
        (MortgageCalculator.generate_payment_schedule i res).entries[k]? =
            some e →
          e.month = k + 1 ∧ e.year = ⌈((e.month : ℕ) : ℚ) / 12⌉₊ := by
  obtain ⟨h₁, h₂, h₃, h₄, h₅, h₆⟩ :=
    (validate_inputs_eq_none_iff _ _ _ _).mp hval
  have hlen := schedule_length_eq i res hval hcalc
  refine ⟨?_, ?_⟩
  · rw [hlen]; exact spec_toNat i h₅
  · intro k e hsome
    have hk : k < (spec_number_of_payments i).toNat := by
      rcases List.getElem?_eq_some.mp hsome with ⟨hlt, _⟩
      rw [hlen] at hlt
      exact hlt
    rw [schedule_getElem?_eq i res hval hcalc k hk] at hsome
    have he2 := Option.some.inj hsome
    rw [← he2]
    refine ⟨Nat.add_comm 1 k, ?_⟩
    norm_num [MONTHS_PER_YEAR]

theorem schedule_length_and_indexing_witness :
    (((MortgageCalculator.generate_payment_schedule ⟨1200, 0, 0, 1⟩
          (spec_results ⟨1200, 0, 0, 1⟩)).entries.length : ℤ) = 1 * 12) ∧
      ∀ (k : ℕ) (e : PaymentScheduleEntry),
        (MortgageCalculator.generate_payment_schedule ⟨1200, 0, 0, 1⟩
            (spec_results ⟨1200, 0, 0, 1⟩)).entries[k]? = some e →
          e.month = k + 1 ∧ e.year = ⌈((e.month : ℕ) : ℚ) / 12⌉₊ :=
  schedule_length_and_indexing ⟨1200, 0, 0, 1⟩ (spec_results ⟨1200, 0, 0, 1⟩)
    (by norm_num [validate_inputs])
    (calculate_mortgage_eq ⟨1200, 0, 0, 1⟩ (by norm_num) (by norm_num)
      (by norm_num))

/-- C7: for every validator-accepted input, `remaining_balance` is
non-increasing across consecutive schedule entries, and no entry has a
negative `remaining_balance` (the `< 0.01` clamp forces any such balance
to exactly 0). -/
theorem remaining_balance_monotone_nonneg (i : MortgageInputs)
    (res : MortgageResults)
    (hval : validate_inputs i.home_value i.deposit i.interest_rate
      i.loan_term_years = none)
    (hcalc : MortgageCalculator.calculate_mortgage i = Except.ok res) :
    (∀ (k : ℕ) (e₁ e₂ : PaymentScheduleEntry),
        (MortgageCalculator.generate_payment_schedule i res).entries[k]? =
            some e₁ →
        (MortgageCalculator.generate_payment_schedule i res).entries[k+1]? =
            some e₂ →
        e₂.remaining_balance ≤ e₁.remaining_balance) ∧
      ∀ (k : ℕ) (e : PaymentScheduleEntry),
        (MortgageCalculator.generate_payment_schedule i res).entries[k]? =
            some e →
        0 ≤ e.remaining_balance := by
  obtain ⟨h₁, h₂, h₃, h₄, h₅, h₆⟩ :=
    (validate_inputs_eq_none_iff _ _ _ _).mp hval
  have hP : 0 < i.home_value - i.deposit := by linarith
  have hr0 : 0 ≤ spec_monthly_rate i := spec_monthly_rate_nonneg i h₄
  have hMb : (i.home_value - i.deposit) * spec_monthly_rate i ≤
      spec_monthly_payment i := principal_rate_le_payment i hP h₄ h₅
  have hlen := schedule_length_eq i res hval hcalc
  constructor
  · intro k e₁ e₂ hs₁ hs₂
    have hk₂ : k + 1 < (spec_number_of_payments i).toNat := by
      rcases List.getElem?_eq_some.mp hs₂ with ⟨hlt, _⟩
      rw [hlen] at hlt
      exact hlt
    have hk₁ : k < (spec_number_of_payments i).toNat := by omega
    rw [schedule_getElem?_eq i res hval hcalc k hk₁] at hs₁
    rw [schedule_getElem?_eq i res hval hcalc (k+1) hk₂] at hs₂
    injection hs₁ with he₁
    injection hs₂ with he₂
    subst he₁
    subst he₂
    show clampIter (spec_monthly_rate i) (spec_monthly_payment i)
      (i.home_value - i.deposit) (k + 1 + 1) ≤
      clampIter (spec_monthly_rate i) (spec_monthly_payment i)
      (i.home_value - i.deposit) (k + 1)
    exact clampIter_succ_le _ _ hr0 (k + 1) (le_of_lt hP) hMb
  · intro k e hs
    have hk : k < (spec_number_of_payments i).toNat := by
      rcases List.getElem?_eq_some.mp hs with ⟨hlt, _⟩
      rw [hlen] at hlt
      exact hlt
    rw [schedule_getElem?_eq i res hval hcalc k hk] at hs
    injection hs with he₁
    subst he₁
    show (0:ℚ) ≤ clampIter (spec_monthly_rate i) (spec_monthly_payment i)
      (i.home_value - i.deposit) (k + 1)
    exact (clampIter_bounds _ _ hr0 (k + 1) (le_of_lt hP) hMb).1

theorem remaining_balance_monotone_nonneg_witness :
    (∀ (k : ℕ) (e₁ e₂ : PaymentScheduleEntry),
        (MortgageCalculator.generate_payment_schedule ⟨1200, 0, 0, 1⟩
            (spec_results ⟨1200, 0, 0, 1⟩)).entries[k]? = some e₁ →
        (MortgageCalculator.generate_payment_schedule ⟨1200, 0, 0, 1⟩
            (spec_results ⟨1200, 0, 0, 1⟩)).entries[k+1]? = some e₂ →
        e₂.remaining_balance ≤ e₁.remaining_balance) ∧
      ∀ (k : ℕ) (e : PaymentScheduleEntry),
        (MortgageCalculator.generate_payment_schedule ⟨1200, 0, 0, 1⟩
            (spec_results ⟨1200, 0, 0, 1⟩)).entries[k]? = some e →
        0 ≤ e.remaining_balance :=
  remaining_balance_monotone_nonneg ⟨1200, 0, 0, 1⟩
    (spec_results ⟨1200, 0, 0, 1⟩) (by norm_num [validate_inputs])
    (calculate_mortgage_eq ⟨1200, 0, 0, 1⟩ (by norm_num) (by norm_num)
      (by norm_num))

/-- C1: for every validator-accepted input and the results computed from
it, the final schedule entry's `remaining_balance` is exactly 0 after the
clamp, including the zero-interest case. -/
theorem final_remaining_balance_zero (i : MortgageInputs)
    (res : MortgageResults)
    (hval : validate_inputs i.home_value i.deposit i.interest_rate
      i.loan_term_years = none)
    (hcalc : MortgageCalculator.calculate_mortgage i = Except.ok res) :
    ∃ e, (MortgageCalculator.generate_payment_schedule i res).entries.getLast?
        = some e ∧ e.remaining_balance = 0 := by
  obtain ⟨h₁, h₂, h₃, h₄, h₅, h₆⟩ :=
    (validate_inputs_eq_none_iff _ _ _ _).mp hval
  have hP : 0 < i.home_value - i.deposit := by linarith
  have he := schedule_entries_eq i res hval hcalc
  have h12 : 12 ≤ (spec_number_of_payments i).toNat := spec_toNat_pos i h₅
  have hlen := schedule_length_eq i res hval hcalc
  have hNlt : (spec_number_of_payments i).toNat - 1 <
      (spec_number_of_payments i).toNat := by omega
  have hget := scheduleGo_getElem? (spec_monthly_rate i)
    (spec_monthly_payment i) (i.home_value - i.deposit) 1
    ((spec_number_of_payments i).toNat)
    ((spec_number_of_payments i).toNat - 1) hNlt
  have hfin : (spec_number_of_payments i).toNat - 1 + 1 =
      (spec_number_of_payments i).toNat := by omega
  rw [hfin] at hget
  have hzero : clampIter (spec_monthly_rate i) (spec_monthly_payment i)
      (i.home_value - i.deposit) ((spec_number_of_payments i).toNat) = 0 :=
    clampIter_eq_zero_of_pureIter _ _
      (spec_monthly_payment_pos i hP h₄ h₅) _ _ (by omega)
      (spec_pureIter_eq_zero i h₄ h₅)
  have hlast : (MortgageCalculator.generate_payment_schedule i res).entries.getLast? =
      (MortgageCalculator.generate_payment_schedule i res).entries[
        (spec_number_of_payments i).toNat - 1]? := by
    rw [List.getLast?_eq_getElem?, hlen]
  rw [hlast, he, hget]
  exact ⟨_, rfl, hzero⟩

theorem final_remaining_balance_zero_witness :
    ∃ e, (MortgageCalculator.generate_payment_schedule ⟨1200, 0, 0, 1⟩
        (spec_results ⟨1200, 0, 0, 1⟩)).entries.getLast? = some e ∧
      e.remaining_balance = 0 :=
  final_remaining_balance_zero ⟨1200, 0, 0, 1⟩ (spec_results ⟨1200, 0, 0, 1⟩)
    (by norm_num [validate_inputs])
    (calculate_mortgage_eq ⟨1200, 0, 0, 1⟩ (by norm_num) (by norm_num)
      (by norm_num))

/-- C8 (amended): for every validator-accepted input, the sum of
`principal` over all schedule entries equals the principal
`home_value - deposit` exactly (exact arithmetic), *provided* the clamp
never fires strictly before the final period, i.e. every intermediate
unclamped balance stays at or above the 0.01 epsilon; when the balance is
clamped to zero early (e.g. a sub-cent principal), the recorded principal
components no longer telescope and the sum differs from the principal. -/
theorem sum_principal_eq_principal (i : MortgageInputs)
    (res : MortgageResults)
    (hval : validate_inputs i.home_value i.deposit i.interest_rate
      i.loan_term_years = none)
    (hcalc : MortgageCalculator.calculate_mortgage i = Except.ok res)
    (hnoclamp : ∀ k, k + 1 < (spec_number_of_payments i).toNat →
      1/100 ≤ pureIter (spec_monthly_rate i) (spec_monthly_payment i)
        (i.home_value - i.deposit) (k + 1)) :
    ((MortgageCalculator.generate_payment_schedule i res).entries.map
        PaymentScheduleEntry.principal).sum = i.home_value - i.deposit := by
  obtain ⟨h₁, h₂, h₃, h₄, h₅, h₆⟩ :=
    (validate_inputs_eq_none_iff _ _ _ _).mp hval
  rw [schedule_entries_eq i res hval hcalc,
    scheduleGo_sum_principal _ _ _ _ _ hnoclamp,
    spec_pureIter_eq_zero i h₄ h₅]
  ring

theorem sum_principal_eq_principal_witness :
    ((MortgageCalculator.generate_payment_schedule ⟨1200, 0, 0, 1⟩
        (spec_results ⟨1200, 0, 0, 1⟩)).entries.map
        PaymentScheduleEntry.principal).sum = (1200 : ℚ) - 0 := by
  apply sum_principal_eq_principal
  · norm_num [validate_inputs]
  · exact calculate_mortgage_eq ⟨1200, 0, 0, 1⟩ (by norm_num) (by norm_num)
      (by norm_num)
  · intro k hk
    have hrr : spec_monthly_rate ⟨1200, 0, 0, 1⟩ = 0 := by
      norm_num [spec_monthly_rate]
    have hMM : spec_monthly_payment ⟨1200, 0, 0, 1⟩ = 100 := by
      norm_num [spec_monthly_payment, spec_monthly_rate,
        spec_number_of_payments]
    have hNN : (spec_number_of_payments ⟨1200, 0, 0, 1⟩).toNat = 12 := rfl
    rw [hNN] at hk
    rw [hrr, hMM, pureIter_rate_zero]
    have hkq : (k : ℚ) ≤ 10 := by exact_mod_cast (by omega : k ≤ 10)
    push_cast
    show (1:ℚ)/100 ≤ 1200 - 0 - ((k:ℚ) + 1) * 100
    linarith

/-- C8 counterexample: the input `home_value = 1/200` (half a cent),
`deposit = 0`, `rate = 1200`, `term = 1` is accepted by the validator, but
the clamp zeroes the balance at month 1, and the sum of the schedule's
principal components is `45057/819000 ≈ 0.055`, not the principal
`1/200 = 0.005` (a 1000% relative error, far outside any tolerance). -/
theorem sum_principal_counterexample :
    validate_inputs (1/200) 0 1200 1 = none ∧
      MortgageCalculator.calculate_mortgage ⟨1/200, 0, 1200, 1⟩ =
        Except.ok (spec_results ⟨1/200, 0, 1200, 1⟩) ∧
      ((MortgageCalculator.generate_payment_schedule ⟨1/200, 0, 1200, 1⟩
          (spec_results ⟨1/200, 0, 1200, 1⟩)).entries.map
          PaymentScheduleEntry.principal).sum ≠
        (1/200 : ℚ) - 0 := by
  refine ⟨by norm_num [validate_inputs],
    calculate_mortgage_eq _ (by norm_num) (by norm_num) (by norm_num), ?_⟩
  have hrr : spec_monthly_rate ⟨1/200, 0, 1200, 1⟩ = 1 := by
    norm_num [spec_monthly_rate]
  have hNN : (spec_number_of_payments ⟨1/200, 0, 1200, 1⟩).toNat = 12 := rfl
  have hMM : spec_monthly_payment ⟨1/200, 0, 1200, 1⟩ = 512/102375 := by
    simp only [spec_monthly_payment, hrr, spec_number_of_payments]
    norm_num
  have hbal : (⟨1/200, 0, 1200, 1⟩ : MortgageInputs).home_value -
      (⟨1/200, 0, 1200, 1⟩ : MortgageInputs).deposit = 1/200 := by norm_num
  rw [schedule_entries_eq _ _ (by norm_num [validate_inputs])
    (calculate_mortgage_eq _ (by norm_num) (by norm_num) (by norm_num))]
  rw [scheduleGo_sum_principal_range, hrr, hMM, hNN, hbal]
  rw [Finset.sum_range_succ']
  have hcs : clampStep 1 (512/102375) (1/200) = 0 := by
    simp only [clampStep]
    rw [if_pos (by norm_num)]
  have hck : ∀ j : ℕ, clampIter 1 (512/102375) (1/200) (j + 1) = 0 := by
    intro j
    rw [clampIter_succ, hcs]
    exact clampIter_zero_start _ _ (by norm_num) j
  have hsum11 : ∑ j ∈ Finset.range 11,
      ((512:ℚ)/102375 - clampIter 1 (512/102375) (1/200) (j + 1) * 1) =
      ∑ j ∈ Finset.range 11, ((512:ℚ)/102375) :=
    Finset.sum_congr rfl (fun j _ => by rw [hck j]; ring)
  rw [hsum11, Finset.sum_const,
    show clampIter 1 (512/102375) (1/200) 0 = 1/200 from rfl]
  norm_num
